import Mathlib

/-!
Verification of the change-detection and cursor-persistence core of
`monitor.py` (HackerOne Hacktivity → Discord monitor).

The embedding models:
* `pyStrip` — the Python `str.strip()` over the full Python 3 whitespace
  character set (`str.isspace()`);
* `FeedItem` — one report node returned by the GraphQL query; `_id = none`
  models a node dict that lacks the `"_id"` key (so that `node["_id"]`
  raises `KeyError`);
* `StoreState` — the state file `last_disclosed_id.txt`: missing,
  existing-but-unreadable (so `open` raises `IOError`), or readable with a
  given content;
* `get_last_id` / `save_last_id` — the cursor store functions;
* `collectNew` — the detection loop of `run_monitor` (scan newest-first,
  stop at the node whose id equals the stored cursor);
* `runCycle` — one iteration of the `while True:` body of `run_monitor`,
  with the network fetch result and the per-item Discord webhook outcome
  supplied as parameters.  Uncaught Python exceptions are modelled as
  `Except.error`.
-/

/-- The characters removed by the Python `str.strip()`: exactly those for
which `str.isspace()` holds in Python 3 — the ASCII whitespace
`\t \n \v \f \r`, the file/group/record/unit separators U+001C-U+001F,
the space, NEL (U+0085), NBSP (U+00A0), the Ogham space mark (U+1680),
the typographic spaces U+2000-U+200A, the line and paragraph separators
U+2028 and U+2029, the narrow no-break space (U+202F), the medium
mathematical space (U+205F) and the ideographic space (U+3000). -/
def isPySpace (c : Char) : Bool :=
  (0x09 ≤ c.toNat && c.toNat ≤ 0x0d) ||
  (0x1c ≤ c.toNat && c.toNat ≤ 0x20) ||
  c.toNat = 0x85 || c.toNat = 0xa0 ||
  c.toNat = 0x1680 ||
  (0x2000 ≤ c.toNat && c.toNat ≤ 0x200a) ||
  c.toNat = 0x2028 || c.toNat = 0x2029 || c.toNat = 0x202f ||
  c.toNat = 0x205f || c.toNat = 0x3000

/-- Python `s.strip()`: drop leading and trailing whitespace characters. -/
def pyStrip (s : String) : String :=
  String.mk ((((s.data.dropWhile isPySpace).reverse).dropWhile isPySpace).reverse)

/-- One report node as extracted from the GraphQL response.  The `_id`
field is `none` when the node dict lacks the `"_id"` key, in which case
`node["_id"]` raises `KeyError` in Python.  The display fields are read
with `.get` in `send_to_discord` and play no role in change detection. -/
structure FeedItem where
  _id : Option String
  title : Option String := none
  url : Option String := none
  severityRating : Option String := none
  teamHandle : Option String := none
deriving DecidableEq

instance : Inhabited FeedItem := ⟨⟨none, none, none, none, none⟩⟩

/-- The state of the cursor file `last_disclosed_id.txt`. -/
inductive StoreState where
  /-- `os.path.exists(STATE_FILE)` is `False`. -/
  | missing
  /-- the file exists but `open(STATE_FILE, "r")` raises `IOError`
  (e.g. a permission error). -/
  | unreadable
  /-- the file exists and holds `content`. -/
  | readable (content : String)
deriving DecidableEq

/-- Uncaught Python exceptions surfaced by the modelled code. -/
inductive PyErr where
  /-- `node["_id"]` on a dict without the `"_id"` key. -/
  | keyError (key : String)
  /-- `open()` raising on an existing but unreadable state file. -/
  | ioError
deriving DecidableEq

/-- `get_last_id` (monitor.py lines 159-172): if the state file exists,
read it, strip the content, and return it unless the stripped content is
empty; return `None` when the file does not exist.  The `open` call is
not wrapped in any `try`/`except`, so an unreadable existing file raises. -/
def get_last_id : StoreState → Except PyErr (Option String)
  | .missing => .ok none
  | .unreadable => .error .ioError
  | .readable content =>
      let c := pyStrip content
      .ok (if c = "" then none else some c)

/-- `save_last_id` (monitor.py lines 174-185): `open(STATE_FILE, "w")`
followed by `f.write(str(report_id))` — the file content is replaced
wholesale by the id string. -/
def save_last_id (reportId : String) (_stateFile : StoreState) : StoreState :=
  .readable reportId

/-- The intermediate file states observable if the process crashes during
`save_last_id`: `open(STATE_FILE, "w")` truncates the file to empty
content before any byte is written, and the subsequent write can be cut
short at any byte boundary.  Index `j` is the state after `j` characters
of `str(report_id)` have reached the file. -/
def save_crash_states (reportId : String) : List StoreState :=
  (List.range (reportId.length + 1)).map (fun j => .readable (String.mk (reportId.data.take j)))

/-- The detection loop of `run_monitor` (lines 214-219): walk the fetched
nodes newest-first; stop (exclusive) at the first node whose
`str(node["_id"])` equals the stored cursor; every node seen before that
is collected as new.  A node without an `"_id"` key raises `KeyError`. -/
def collectNew (lastSeen : String) : List FeedItem → Except PyErr (List FeedItem)
  | [] => .ok []
  | node :: rest =>
    match node._id with
    | none => .error (.keyError "_id")
    | some i =>
      if i = lastSeen then .ok []
      else
        match collectNew lastSeen rest with
        | .error e => .error e
        | .ok tl => .ok (node :: tl)

/-- The observable outcome of one poll cycle: the state file afterwards,
and the sequence of `send_to_discord` calls in program order (oldest
first), each paired with whether the Discord webhook post succeeded.
`send_to_discord` catches `RequestException` itself and only prints, so
the outcome of a post is invisible to `run_monitor`. -/
structure CycleOut where
  stateFile : StoreState
  sent : List (FeedItem × Bool)
deriving DecidableEq

/-- One iteration of the `while True:` body of `run_monitor`
(monitor.py lines 200-234), with the fetch result (`none` models a fetch
failure returning `None`) and the webhook outcome of each notification
supplied as parameters.  `if nodes:` is false both for `None` and for an
empty list, so those cycles do nothing.  On a first run
(`get_last_id()` is `None`) the newest id is saved and nothing is sent;
otherwise the new reports are sent oldest-first and the id of the newest
new report is saved — unconditionally, whatever the webhook outcomes. -/
def runCycle (stateFile : StoreState) (nodes : Option (List FeedItem))
    (notifyOk : FeedItem → Bool) : Except PyErr CycleOut :=
  match nodes with
  | none => .ok ⟨stateFile, []⟩
  | some [] => .ok ⟨stateFile, []⟩
  | some (first :: rest) =>
    match get_last_id stateFile with
    | .error e => .error e
    | .ok none =>
      match first._id with
      | none => .error (.keyError "_id")
      | some i => .ok ⟨save_last_id i stateFile, []⟩
    | .ok (some c) =>
      match collectNew c (first :: rest) with
      | .error e => .error e
      | .ok [] => .ok ⟨stateFile, []⟩
      | .ok (r0 :: more) =>
        match r0._id with
        | none => .error (.keyError "_id")
        | some i =>
          .ok ⟨save_last_id i stateFile,
               ((r0 :: more).reverse).map (fun r => (r, notifyOk r))⟩

/-- Concrete items used in witnesses and counterexamples. -/
def item (i : String) : FeedItem := { _id := some i }

/-- A node dict that lacks the `"_id"` key. -/
def itemNoId : FeedItem := { _id := none }

/-- The detection loop stops immediately when the newest node carries the
stored cursor id: nothing is collected. -/
theorem collectNew_stop (c : String) (first : FeedItem) (rest : List FeedItem)
    (h : first._id = some c) : collectNew c (first :: rest) = .ok [] := by
  simp [collectNew, h]

/-- When the stored cursor id appears nowhere in the window (and every node
has an id), the whole window is collected as new. -/
theorem collectNew_all (c : String) (W : List FeedItem)
    (hids : ∀ x ∈ W, (x._id).isSome)
    (hne : ∀ x ∈ W, x._id ≠ some c) :
    collectNew c W = .ok W := by
  induction W with
  | nil => rfl
  | cons first rest ih =>
    obtain ⟨i, hi⟩ := Option.isSome_iff_exists.mp (hids first (List.mem_cons_self first rest))
    have hic : ¬ i = c := by
      intro h
      exact hne first (List.mem_cons_self first rest) (by rw [hi, h])
    have htl := ih (fun x hx => hids x (List.mem_cons_of_mem first hx))
      (fun x hx => hne x (List.mem_cons_of_mem first hx))
    simp [collectNew, hi, hic, htl]

/-- When the stored cursor id first appears at position `k` of the window
(and every earlier node has an id), exactly the first `k` nodes are
collected as new. -/
theorem collectNew_take (c : String) (W : List FeedItem) (k : Nat)
    (hk : k < W.length)
    (hck : (W.get ⟨k, hk⟩)._id = some c)
    (hbefore : ∀ j (hj : j < k), (W.get ⟨j, hj.trans hk⟩)._id ≠ some c)
    (hids : ∀ j (hj : j < k), ((W.get ⟨j, hj.trans hk⟩)._id).isSome) :
    collectNew c W = .ok (W.take k) := by
  induction W generalizing k with
  | nil => exact absurd hk (Nat.not_lt_zero k)
  | cons first rest ih =>
    cases k with
    | zero =>
      have h0 : first._id = some c := hck
      simp [collectNew, h0]
    | succ k =>
      have h0 : (first._id).isSome := hids 0 (Nat.succ_pos k)
      obtain ⟨i, hi⟩ := Option.isSome_iff_exists.mp h0
      have hic : ¬ i = c := by
        intro h
        exact hbefore 0 (Nat.succ_pos k) (by rw [show (((first :: rest).get
          ⟨0, (Nat.succ_pos k).trans hk⟩))._id = first._id from rfl, hi, h])
      have htl := ih k (Nat.lt_of_succ_lt_succ hk) hck
        (fun j hj => hbefore (j + 1) (Nat.succ_lt_succ hj))
        (fun j hj => hids (j + 1) (Nat.succ_lt_succ hj))
      simp [collectNew, hi, hic, htl]

/-- In a window whose id column has no duplicates, the id found at
position `k` appears at no earlier position. -/
theorem nodup_not_before (W : List FeedItem) (c : String) (k : Nat)
    (hnodup : (W.map FeedItem._id).Nodup)
    (hk : k < W.length)
    (hck : (W.get ⟨k, hk⟩)._id = some c) :
    ∀ j (hj : j < k), (W.get ⟨j, hj.trans hk⟩)._id ≠ some c := by
  intro j hj hjc
  have hlen : (W.map FeedItem._id).length = W.length := List.length_map W FeedItem._id
  have hj' : j < (W.map FeedItem._id).length := by rw [hlen]; exact hj.trans hk
  have hk' : k < (W.map FeedItem._id).length := by rw [hlen]; exact hk
  have hgj : (W.map FeedItem._id).get ⟨j, hj'⟩ = (W.get ⟨j, hj.trans hk⟩)._id :=
    List.get_map FeedItem._id
  have hgk : (W.map FeedItem._id).get ⟨k, hk'⟩ = (W.get ⟨k, hk⟩)._id :=
    List.get_map FeedItem._id
  have heq : (W.map FeedItem._id).get ⟨j, hj'⟩ = (W.map FeedItem._id).get ⟨k, hk'⟩ := by
    rw [hgj, hgk, hjc, hck]
  have hfin := (List.Nodup.get_inj_iff hnodup).mp heq
  have hjk : j = k := congrArg Fin.val hfin
  exact absurd hjk (Nat.ne_of_lt hj)

/-- C1: claimed — if any notification in the batch of new items fails, the
new cursor is not saved for that cycle.  The code violates this: the
webhook outcome is swallowed inside `send_to_discord`, and `run_monitor`
calls `save_last_id(new_reports[0]["_id"])` unconditionally.  Here every
notification of the cycle fails (`notifyOk` is constantly `false`), yet
the stored cursor still advances from `"103"` to `"104"`; moreover the
resulting state file never depends on the webhook outcomes at all. -/
theorem c1_cursor_saved_despite_notify_failure :
    runCycle (.readable "103") (some [item "104", item "103"]) (fun _ => false)
      = .ok ⟨.readable "104", [(item "104", false)]⟩
    ∧ ∀ (st : StoreState) (nodes : Option (List FeedItem)) (f g : FeedItem → Bool),
        (runCycle st nodes f).map CycleOut.stateFile
          = (runCycle st nodes g).map CycleOut.stateFile := by
  refine ⟨rfl, ?_⟩
  intro st nodes f g
  match nodes with
  | none => rfl
  | some [] => rfl
  | some (first :: rest) =>
    cases hg : get_last_id st with
    | error e => simp [runCycle, hg]
    | ok lastSeen =>
      cases lastSeen with
      | none => cases hid : first._id <;> simp [runCycle, hg, hid]
      | some c =>
        cases hc : collectNew c (first :: rest) with
        | error e => simp [runCycle, hg, hc]
        | ok nr =>
          cases nr with
          | nil => simp [runCycle, hg, hc]
          | cons r0 more =>
            cases hid : r0._id <;> simp [runCycle, hg, hc, hid, Except.map]

/-- C3: on a first run (`get_last_id()` returns `None`) with a non-empty
window, no notification is sent and the id of the newest item (index 0)
is saved as the cursor. -/
theorem c3_bootstrap (st : StoreState) (first : FeedItem) (rest : List FeedItem)
    (i : String) (notifyOk : FeedItem → Bool)
    (hget : get_last_id st = .ok none) (hid : first._id = some i) :
    runCycle st (some (first :: rest)) notifyOk = .ok ⟨.readable i, []⟩ := by
  simp [runCycle, hget, hid, save_last_id]

/-- C3 witness: first run against the window `[105, 104, 103]`. -/
theorem c3_bootstrap_witness :
    runCycle .missing (some [item "105", item "104", item "103"]) (fun _ => true)
      = .ok ⟨.readable "105", []⟩ :=
  c3_bootstrap .missing (item "105") [item "104", item "103"] "105"
    (fun _ => true) rfl rfl

/-- C5: when the newest item already carries the stored cursor id, nothing
is sent and the state file is left untouched — running the same cycle
again changes nothing. -/
theorem c5_no_change (st : StoreState) (first : FeedItem) (rest : List FeedItem)
    (c : String) (notifyOk : FeedItem → Bool)
    (hget : get_last_id st = .ok (some c)) (hid : first._id = some c) :
    runCycle st (some (first :: rest)) notifyOk = .ok ⟨st, []⟩ := by
  simp [runCycle, hget, collectNew_stop c first rest hid]

/-- C5 witness: window `[103, 102]` with stored cursor `"103"`. -/
theorem c5_no_change_witness :
    runCycle (.readable "103") (some [item "103", item "102"]) (fun _ => true)
      = .ok ⟨.readable "103", []⟩ :=
  c5_no_change (.readable "103") (item "103") [item "102"] "103"
    (fun _ => true) rfl rfl

/-- C6: a cycle whose fetched window is empty sends nothing and leaves the
state file unchanged, whatever cursor it holds (`if nodes:` is false for
the empty list). -/
theorem c6_empty_window (st : StoreState) (notifyOk : FeedItem → Bool) :
    runCycle st (some []) notifyOk = .ok ⟨st, []⟩ := rfl

/-- C7: claimed — an item lacking an id is skipped with a logged
diagnostic and the cycle completes.  The code violates this: the
detection loop evaluates `node["_id"]`, which raises `KeyError` on such a
node; the exception is uncaught in `run_monitor`, so the cycle (and the
process) aborts instead of completing. -/
theorem c7_missing_id_is_fatal :
    runCycle (.readable "103") (some [itemNoId, item "103"]) (fun _ => true)
      = .error (.keyError "_id") := rfl

/-- C8: claimed — a crash mid-save never leaves the store holding a value
that is neither the old nor the new identifier.  The code violates this:
`save_last_id` opens the state file with mode `"w"`, which truncates it
before writing, with no temporary file or atomic rename.  With old cursor
`"7"`, a crash of `save_last_id("42")` right after the truncation leaves
the empty file — a reachable crash state that reads back as absent,
which is neither `"7"` nor `"42"`. -/
theorem c8_crash_state_neither_old_nor_new :
    StoreState.readable "" ∈ save_crash_states "42"
    ∧ get_last_id (StoreState.readable "") = .ok none
    ∧ get_last_id (StoreState.readable "7") = .ok (some "7")
    ∧ get_last_id (StoreState.readable "42") = .ok (some "42") :=
  ⟨by decide, rfl, rfl, rfl⟩

/-- C9: claimed — an unreadable cursor store degrades to an absent cursor
instead of failing the cycle.  The code violates this: `get_last_id` has
no `try`/`except`, so when the state file exists but `open` raises, the
`IOError` propagates out of `run_monitor` and aborts the cycle (and the
process) for any non-empty fetch. -/
theorem c9_unreadable_store_is_fatal (first : FeedItem) (rest : List FeedItem)
    (notifyOk : FeedItem → Bool) :
    runCycle .unreadable (some (first :: rest)) notifyOk = .error .ioError := rfl

/-- C4: when the stored cursor id appears nowhere in the window, every
fetched item is treated as new — sent oldest-first — and the id of the
newest item (index 0) is saved as the new cursor. -/
theorem c4_boundary_fallen_off (st : StoreState) (first : FeedItem)
    (rest : List FeedItem) (c i : String) (notifyOk : FeedItem → Bool)
    (hget : get_last_id st = .ok (some c))
    (hids : ∀ x ∈ first :: rest, (x._id).isSome)
    (hne : ∀ x ∈ first :: rest, x._id ≠ some c)
    (hid : first._id = some i) :
    runCycle st (some (first :: rest)) notifyOk =
      .ok ⟨.readable i, ((first :: rest).reverse).map (fun r => (r, notifyOk r))⟩ := by
  have hall := collectNew_all c (first :: rest) hids hne
  simp [runCycle, hget, hall, hid, save_last_id]

/-- C4 witness: window `[105, 104]` with stored cursor `"99"`, which has
fallen outside the window: both items are sent, oldest first, and the
cursor becomes `"105"`. -/
theorem c4_boundary_fallen_off_witness :
    runCycle (.readable "99") (some [item "105", item "104"]) (fun _ => true)
      = .ok ⟨.readable "105", [(item "104", true), (item "105", true)]⟩ := by
  have h := c4_boundary_fallen_off (.readable "99") (item "105") [item "104"]
    "99" "105" (fun _ => true) rfl (by decide) (by decide) rfl
  simpa using h

/-- C2: steady state — when the stored cursor id sits at position `k` of a
window whose ids are pairwise distinct (the data-model invariant) and
every item carries an id, exactly the items at positions `0..k-1` are
sent, in reversed (oldest-first) order; the saved cursor becomes the id
of the newest item when anything was new, and the state file is untouched
when `k = 0`. -/
theorem c2_steady_state (st : StoreState) (W : List FeedItem) (c : String)
    (k : Nat) (notifyOk : FeedItem → Bool)
    (hget : get_last_id st = .ok (some c))
    (hids : ∀ x ∈ W, (x._id).isSome)
    (hnodup : (W.map FeedItem._id).Nodup)
    (hk : k < W.length)
    (hck : (W.get ⟨k, hk⟩)._id = some c) :
    runCycle st (some W) notifyOk =
      .ok ⟨if k = 0 then st else .readable ((W.headI._id).getD ""),
           ((W.take k).reverse).map (fun r => (r, notifyOk r))⟩ := by
  have hbefore := nodup_not_before W c k hnodup hk hck
  have hcol := collectNew_take c W k hk hck hbefore
    (fun j hj => hids (W.get ⟨j, hj.trans hk⟩) (W.get_mem _ _))
  match W, hk with
  | first :: rest, _ =>
    cases k with
    | zero => simp [runCycle, hget, hcol]
    | succ k =>
      obtain ⟨i, hi⟩ :=
        Option.isSome_iff_exists.mp (hids first (List.mem_cons_self first rest))
      have htake : (first :: rest).take (k + 1) = first :: rest.take k := rfl
      rw [htake] at hcol
      simp [runCycle, hget, hcol, hi, save_last_id, htake]

/-- C2 witness: the concrete scenario of the spec — window `[105, 104, 103]`
with stored cursor `"103"` (position `k = 2`): delivery order is
`[104, 105]` and the saved cursor is `"105"`. -/
theorem c2_steady_state_witness :
    runCycle (.readable "103") (some [item "105", item "104", item "103"])
      (fun _ => true)
      = .ok ⟨.readable "105", [(item "104", true), (item "105", true)]⟩ := by
  have h := c2_steady_state (.readable "103")
    [item "105", item "104", item "103"] "103" 2 (fun _ => true)
    rfl (by decide) (by decide) (by decide) (by decide)
  simpa using h

/-- C10: cursor-store round trip — saving an id whose string form is
non-empty and free of leading/trailing whitespace and loading it back
returns exactly that string; loading from a missing state file, or from
one whose content is empty or whitespace-only, returns `None`. -/
theorem c10_roundtrip (s content : String) (st : StoreState)
    (h1 : pyStrip s = s) (h2 : s ≠ "")
    (h3 : ∀ ch ∈ content.data, isPySpace ch = true) :
    get_last_id (save_last_id s st) = .ok (some s)
    ∧ get_last_id .missing = .ok none
    ∧ get_last_id (.readable content) = .ok none := by
  refine ⟨?_, rfl, ?_⟩
  · simp [save_last_id, get_last_id, h1, h2]
  · have hdrop : content.data.dropWhile isPySpace = [] :=
      List.dropWhile_eq_nil_iff.mpr h3
    simp [get_last_id, pyStrip, hdrop]

/-- C10 witness: saving `"42"` over a store holding `"7"` and reading it
back yields `"42"`; a missing file and a whitespace-only file both read
back as absent. -/
theorem c10_roundtrip_witness :
    get_last_id (save_last_id "42" (.readable "7")) = .ok (some "42")
    ∧ get_last_id .missing = .ok none
    ∧ get_last_id (.readable " \n") = .ok none :=
  c10_roundtrip "42" " \n" (.readable "7") (by decide) (by decide) (by decide)
